import Mathlib

/-!
Shallow embedding of the QuizMaster AI session lifecycle (src/types.ts and
src/App.tsx together with the geminiService collaborator module).

Conventions of the embedding:
* JS objects used as string-keyed maps (`Record<string, T>`, `UserAnswers`)
  are association lists `List (String × T)` in insertion order; property
  update `{...m, [k]: v}` replaces the binding in place or appends a fresh
  one (`setKey`), property read is `getKey`.
* JS numbers that the program only ever uses as integers (`Date.now()`
  timestamps, `numQuestions`) are `Int`; since `numQuestions` can become
  `NaN` through `Math.max(1, parseInt(...))`, its field type is
  `Option Int` with `none` playing the role of `NaN` (`Math.max` and
  arithmetic propagate `NaN`, modelled by `Option.map`).
* `null` and `undefined` on the optional fields (`correction`,
  `weakTopics`, `error`) are both `Option.none`; the program never
  distinguishes them on these fields.
* The two collaborator calls (`generateQuiz`, `correctAndReviewQuiz`) are
  parameters of the handlers: each call either returns its payload or
  throws; both collaborators wrap every internal failure in a fixed
  `Error` with a non-empty French message (their `catch` blocks), so a
  failure outcome is `Except.error ()` and the handler's `catch` computes
  the corresponding `err.message`.
-/

namespace QuizMaster

/-- The `SessionState` enum from types.ts (numeric TS enum, values 0..5). -/
inductive SessionState where
  | CONFIGURING_QUIZ
  | GENERATING_QUIZ
  | TAKING_QUIZ
  | SUBMITTING_QUIZ
  | REVIEWING_QUIZ
  | ERROR
deriving DecidableEq, Repr

/-- The `QuizType` enum from types.ts (string-valued TS enum). -/
inductive QuizType where
  | SINGLE
  | MULTIPLE
  | MIXED
deriving DecidableEq, Repr

/-- The string value carried by each `QuizType` member. -/
def QuizType.label : QuizType → String
  | .SINGLE => "Réponse Unique"
  | .MULTIPLE => "Réponses Multiples"
  | .MIXED => "Mixte"

/-- The `'single' | 'multiple'` union used for `Question.type`. -/
inductive QKind where
  | single
  | multiple
deriving DecidableEq, Repr

/-- The `Option` interface from types.ts (renamed: `Option` is taken in Lean). -/
structure QOption where
  text : String
  isCorrect : Bool
deriving DecidableEq, Repr

/-- The `Question` interface from types.ts. -/
structure Question where
  id : String
  questionText : String
  options : List QOption
  type : QKind
deriving DecidableEq, Repr

/-- The `UserAnswers` shape from types.ts: a string-keyed JS object, here an
insertion-ordered association list. -/
abbrev UserAnswers := List (String × List String)

/-- The `QuizResult` interface from types.ts. -/
structure QuizResult where
  questionText : String
  userAnswer : List String
  correctAnswer : List String
  isCorrect : Bool
  feedbackFR : String
  feedbackAR : String
deriving DecidableEq, Repr

/-- The `CorrectionResponse` interface from types.ts. -/
structure CorrectionResponse where
  results : List QuizResult
  weakTopics : String
deriving DecidableEq, Repr

/-- The `DocumentSession` interface from types.ts.  `numQuestions : Option Int`
with `none` standing for the JS number `NaN`; `error`/`weakTopics` use
`none` for both `null` and `undefined`. -/
structure DocumentSession where
  id : String
  fileName : String
  content : String
  quizType : QuizType
  numQuestions : Option Int
  questions : List Question
  userAnswers : UserAnswers
  correction : Option CorrectionResponse
  weakTopics : Option String
  lastAccessed : Int
  state : SessionState
  error : Option String
deriving DecidableEq, Repr

/-- Property read `m[k]` on a JS object modelled as an association list. -/
def getKey {α : Type} : List (String × α) → String → Option α
  | [], _ => none
  | (k', v) :: rest, k => if k' = k then some v else getKey rest k

/-- Property update `{...m, [k]: v}`: replace the binding if the key is
present, otherwise append it (JS insertion order). -/
def setKey {α : Type} : List (String × α) → String → α → List (String × α)
  | [], k, v => [(k, v)]
  | (k', v') :: rest, k, v =>
      if k' = k then (k, v) :: rest else (k', v') :: setKey rest k v

/-- The answer list the UI reads for a question:
`activeSession.userAnswers[questionId] || []` (App.tsx line 114). -/
def userAnswersAt (s : DocumentSession) (qId : String) : List String :=
  (getKey s.userAnswers qId).getD []

/-- The session built by `handleFileChange` (App.tsx lines 57-69). -/
def newSession (id fileName content : String) (now : Int) : DocumentSession :=
  { id := id
    fileName := fileName
    content := content
    quizType := .MIXED
    numQuestions := some 5
    questions := []
    userAnswers := []
    correction := none
    weakTopics := none
    lastAccessed := now
    state := .CONFIGURING_QUIZ
    error := none }

/-- Model of `parseInt(v, 10)` on the strings a number input can hold: skip leading
whitespace, optional sign, then the longest leading digit run; `none`
(JS `NaN`) when no digits are found. -/
def digitRun (cs : List Char) : List Char := cs.takeWhile (fun c => c.isDigit)

/-- Value of a non-empty digit run, `none` when the run is empty. -/
def digitsVal (cs : List Char) : Option Nat :=
  if cs.isEmpty then none
  else some (cs.foldl (fun a c => a * 10 + (c.toNat - 48)) 0)

/-- JS `parseInt(v, 10)`; `none` models `NaN`. -/
def parseIntJs (v : String) : Option Int :=
  let cs := v.data.dropWhile (fun c => c = ' ' ∨ c = '\t' ∨ c = '\n' ∨ c = '\r')
  match cs with
  | '-' :: rest => (digitsVal (digitRun rest)).map (fun n => -(n : Int))
  | '+' :: rest => (digitsVal (digitRun rest)).map (fun n => (n : Int))
  | _ => (digitsVal (digitRun cs)).map (fun n => (n : Int))

/-- JS `Math.max(1, x)`: `NaN` absorbs (`Math.max(1, NaN) = NaN`). -/
def jsMax1 : Option Int → Option Int :=
  Option.map (fun n => max 1 n)

/-- The `onChange` handler of the question-count input (App.tsx line 237):
`updateActiveSession({ numQuestions: Math.max(1, parseInt(e.target.value, 10)) })`. -/
def setNumQuestionsHandler (s : DocumentSession) (raw : String) (now : Int) :
    DocumentSession :=
  { s with numQuestions := jsMax1 (parseIntJs raw), lastAccessed := now }

/-- The quiz-type button handler (App.tsx line 250). -/
def setQuizTypeHandler (s : DocumentSession) (t : QuizType) (now : Int) :
    DocumentSession :=
  { s with quizType := t, lastAccessed := now }

/-- Fixed message thrown by `handleGenerateQuiz` when the generator
returns zero questions (App.tsx line 98). -/
def noQuestionsMsg : String :=
  "L'API n'a retourné aucune question. Veuillez vérifier le contenu fourni."

/-- Fixed message with which `generateQuiz` (geminiService) wraps every
internal failure before rethrowing (its `catch` block). -/
def generateFailMsg : String :=
  "Impossible de générer le quiz. Veuillez vérifier le contenu fourni et réessayer."

/-- Fixed message with which `correctAndReviewQuiz` (geminiService) wraps
every internal failure before rethrowing (its `catch` block). -/
def gradeFailMsg : String :=
  "Impossible de corriger le quiz. Une erreur s'est produite."

/-- First half of `handleGenerateQuiz` (App.tsx line 94): enter
`GENERATING_QUIZ` and clear `error` before awaiting the generator. -/
def generateStart (s : DocumentSession) (now : Int) : DocumentSession :=
  { s with state := .GENERATING_QUIZ, error := none, lastAccessed := now }

/-- Second half of `handleGenerateQuiz` (App.tsx lines 96-109): on ≥1
questions install them and move to `TAKING_QUIZ`; on zero questions the
thrown `Error` is caught and its message stored; a generator failure
carries `generateFailMsg`. -/
def generateFinish (s : DocumentSession)
    (res : Except Unit (List Question)) (now : Int) : DocumentSession :=
  match res with
  | .ok qs =>
      if qs.length = 0 then
        { s with error := some noQuestionsMsg, state := .ERROR, lastAccessed := now }
      else
        { s with questions := qs, userAnswers := [], correction := none,
                 state := .TAKING_QUIZ, lastAccessed := now }
  | .error _ =>
      { s with error := some generateFailMsg, state := .ERROR, lastAccessed := now }

/-- The whole of `handleGenerateQuiz` (App.tsx lines 92-110), parameterised
by the generator outcome and the two `Date.now()` stamps. -/
def handleGenerateQuiz (s : DocumentSession)
    (res : Except Unit (List Question)) (n1 n2 : Int) : DocumentSession :=
  generateFinish (generateStart s n1) res n2

/-- The answer-list transformation inside `handleAnswerChange`
(App.tsx lines 114-124): radio replaces with a singleton, checkbox
toggles membership (`filter(a => a !== optionText)` removes, append adds). -/
def recordAnswer (currentAnswers : List String) (optionText : String)
    (isMultiple : Bool) : List String :=
  if isMultiple then
    if optionText ∈ currentAnswers then
      currentAnswers.filter (fun a => a != optionText)
    else
      currentAnswers ++ [optionText]
  else
    [optionText]

/-- The handler `handleAnswerChange` (App.tsx lines 112-128). -/
def handleAnswerChange (s : DocumentSession) (questionId optionText : String)
    (isMultiple : Bool) (now : Int) : DocumentSession :=
  let currentAnswers := (getKey s.userAnswers questionId).getD []
  let newAnswers := recordAnswer currentAnswers optionText isMultiple
  { s with userAnswers := setKey s.userAnswers questionId newAnswers,
           lastAccessed := now }

/-- The guard `isQuizAnswered` (App.tsx lines 130-133): false when there are no
questions, else every question must have an existing, non-empty answer
array (`userAnswers[q.id] && userAnswers[q.id].length > 0`; a JS array is
always truthy, so the `&&` only guards existence). -/
def isQuizAnswered (s : DocumentSession) : Bool :=
  if s.questions.length = 0 then false
  else s.questions.all fun q =>
    match getKey s.userAnswers q.id with
    | some l => decide (l.length > 0)
    | none => false

/-- First half of `handleSubmitQuiz` (App.tsx line 137): enter
`SUBMITTING_QUIZ` and clear `error` before awaiting the grader. -/
def submitStart (s : DocumentSession) (now : Int) : DocumentSession :=
  { s with state := .SUBMITTING_QUIZ, error := none, lastAccessed := now }

/-- Second half of `handleSubmitQuiz` (App.tsx lines 139-148): install the
correction and its weak topics, or store the grader's failure message. -/
def submitFinish (s : DocumentSession)
    (res : Except Unit CorrectionResponse) (now : Int) : DocumentSession :=
  match res with
  | .ok r =>
      { s with correction := some r, weakTopics := some r.weakTopics,
               state := .REVIEWING_QUIZ, lastAccessed := now }
  | .error _ =>
      { s with error := some gradeFailMsg, state := .ERROR, lastAccessed := now }

/-- The whole of `handleSubmitQuiz` (App.tsx lines 135-149):
`if (!isQuizAnswered || !activeSession) return;` rejects the transition,
leaving the session untouched. -/
def handleSubmitQuiz (s : DocumentSession)
    (res : Except Unit CorrectionResponse) (n1 n2 : Int) : DocumentSession :=
  if isQuizAnswered s then submitFinish (submitStart s n1) res n2 else s

/-- The error-acknowledge button (App.tsx line 385):
`updateActiveSession({ state: SessionState.CONFIGURING_QUIZ, error: null })`. -/
def ackErrorHandler (s : DocumentSession) (now : Int) : DocumentSession :=
  { s with state := .CONFIGURING_QUIZ, error := none, lastAccessed := now }

/-- The "Améliorer mes points faibles" button (App.tsx line 367): back to
configuration clearing `questions`/`userAnswers`/`correction`/`error` —
`weakTopics` is deliberately left in place to drive targeted regeneration. -/
def improveWeakTopics (s : DocumentSession) (now : Int) : DocumentSession :=
  { s with state := .CONFIGURING_QUIZ, questions := [], userAnswers := [],
           correction := none, error := none, lastAccessed := now }

/-- The reset path `resetSession(false)` (App.tsx lines 157-164): full reset of the
session back to configuration, clearing `weakTopics` as well. -/
def resetSession (s : DocumentSession) (now : Int) : DocumentSession :=
  { s with state := .CONFIGURING_QUIZ, questions := [], userAnswers := [],
           correction := none, error := none, weakTopics := none,
           lastAccessed := now }

/-!
Per-session transition system: the operations a user (through the rendered
controls) and the awaited collaborator results can apply to one session.
Each suspending handler is split into its synchronous start (the state
update before the `await`) and its resumption, so the in-flight
`GENERATING_QUIZ` / `SUBMITTING_QUIZ` states are observable between steps.
Guards mirror where App.tsx renders (or enables) the triggering control.
-/

/-- One user- or collaborator-triggered event on the active session. -/
inductive Op where
  | startGenerate (now : Int)
  | finishGenerate (res : Except Unit (List Question)) (now : Int)
  | answer (questionId optionText : String) (isMultiple : Bool) (now : Int)
  | startSubmit (now : Int)
  | finishSubmit (res : Except Unit CorrectionResponse) (now : Int)
  | ackError (now : Int)
  | improve (now : Int)
  | reset (now : Int)
  | setQuizType (t : QuizType) (now : Int)
  | setNumQuestions (raw : String) (now : Int)

/-- Whether the "Améliorer mes points faibles" button is rendered
(App.tsx lines 305, 365): a correction exists and its `weakTopics` string
is truthy (non-empty). -/
def improveAvailable (s : DocumentSession) : Bool :=
  match s.correction with
  | some c => c.weakTopics != ""
  | none => false

/-- Apply one event to the session; an event whose triggering control is
not rendered (or is disabled) in the current state leaves the session
unchanged. -/
def step (s : DocumentSession) : Op → DocumentSession
  | .startGenerate now =>
      if s.state = .CONFIGURING_QUIZ ∧ s.content ≠ "" then generateStart s now else s
  | .finishGenerate res now =>
      if s.state = .GENERATING_QUIZ then generateFinish s res now else s
  | .answer q o m now =>
      if s.state = .TAKING_QUIZ then handleAnswerChange s q o m now else s
  | .startSubmit now =>
      if s.state = .TAKING_QUIZ ∧ isQuizAnswered s then submitStart s now else s
  | .finishSubmit res now =>
      if s.state = .SUBMITTING_QUIZ then submitFinish s res now else s
  | .ackError now =>
      if s.state = .ERROR then ackErrorHandler s now else s
  | .improve now =>
      if s.state = .REVIEWING_QUIZ ∧ improveAvailable s then improveWeakTopics s now else s
  | .reset now => resetSession s now
  | .setQuizType t now =>
      if s.state = .CONFIGURING_QUIZ then setQuizTypeHandler s t now else s
  | .setNumQuestions raw now =>
      if s.state = .CONFIGURING_QUIZ then setNumQuestionsHandler s raw now else s

/-- Run a sequence of events from a session. -/
def run (s : DocumentSession) (ops : List Op) : DocumentSession :=
  ops.foldl step s

/-- A session is reachable when some event sequence produces it from a
freshly created session. -/
def Reachable (s : DocumentSession) : Prop :=
  ∃ id fileName content n0 ops, s = run (newSession id fileName content n0) ops

/-! ### Association-list lemmas -/

theorem getKey_setKey_self {α : Type} (m : List (String × α)) (k : String) (v : α) :
    getKey (setKey m k v) k = some v := by
  induction m with
  | nil => simp [setKey, getKey]
  | cons p rest ih =>
      obtain ⟨k', v'⟩ := p
      by_cases h : k' = k
      · simp [setKey, h, getKey]
      · simp [setKey, h, getKey, ih]

theorem getKey_setKey_other {α : Type} (m : List (String × α)) (k k' : String) (v : α)
    (h : k' ≠ k) : getKey (setKey m k v) k' = getKey m k' := by
  have hk : ¬k = k' := fun hh => h hh.symm
  induction m with
  | nil => simp [setKey, getKey, hk]
  | cons p rest ih =>
      obtain ⟨ka, va⟩ := p
      by_cases hka : ka = k
      · subst hka
        simp [setKey, getKey, hk]
      · simp [setKey, hka, getKey, ih]

/-- Reading back the answer list just written for the same question. -/
theorem userAnswersAt_handleAnswerChange_self (s : DocumentSession)
    (q o : String) (m : Bool) (now : Int) :
    userAnswersAt (handleAnswerChange s q o m now) q
      = recordAnswer (userAnswersAt s q) o m := by
  simp [userAnswersAt, handleAnswerChange, getKey_setKey_self]

/-- The handler `handleAnswerChange` leaves other questions' answer lists alone. -/
theorem userAnswersAt_handleAnswerChange_other (s : DocumentSession)
    (q o : String) (m : Bool) (now : Int) (q' : String) (h : q' ≠ q) :
    userAnswersAt (handleAnswerChange s q o m now) q' = userAnswersAt s q' := by
  simp [userAnswersAt, handleAnswerChange, getKey_setKey_other _ _ _ _ h]

/-! ### The multi-select toggle -/

/-- Toggling an absent option on and off again restores the exact list. -/
theorem recordAnswer_toggle_eq (l : List String) (o : String) (h : o ∉ l) :
    recordAnswer (recordAnswer l o true) o true = l := by
  have h1 : recordAnswer l o true = l ++ [o] := by simp [recordAnswer, h]
  have h3 : l.filter (fun a => a != o) = l :=
    List.filter_eq_self.mpr (fun a ha => by
      simp only [bne_iff_ne, ne_eq]
      exact fun hao => h (hao ▸ ha))
  rw [h1]
  simp [recordAnswer, List.filter_append, h3]

/-- Toggling any option twice preserves membership of every option. -/
theorem recordAnswer_toggle_mem (l : List String) (o x : String) :
    (x ∈ recordAnswer (recordAnswer l o true) o true) ↔ x ∈ l := by
  by_cases h : o ∈ l
  · have h1 : recordAnswer l o true = l.filter (fun a => a != o) := by
      simp [recordAnswer, h]
    have h2 : o ∉ l.filter (fun a => a != o) := by
      simp [List.mem_filter]
    have h3 : recordAnswer (l.filter (fun a => a != o)) o true
        = l.filter (fun a => a != o) ++ [o] := by
      simp [recordAnswer, h2]
    rw [h1, h3]
    simp only [List.mem_append, List.mem_filter, List.mem_singleton, bne_iff_ne, ne_eq]
    constructor
    · rintro (⟨hx, -⟩ | rfl)
      · exact hx
      · exact h
    · intro hx
      by_cases hxo : x = o
      · exact Or.inr hxo
      · exact Or.inl ⟨hx, hxo⟩
  · rw [recordAnswer_toggle_eq l o h]

/-- The transformation `recordAnswer` preserves duplicate-freedom of the answer list. -/
theorem recordAnswer_nodup (l : List String) (o : String) (m : Bool)
    (h : l.Nodup) : (recordAnswer l o m).Nodup := by
  cases m with
  | false => simp [recordAnswer]
  | true =>
      by_cases ho : o ∈ l
      · simpa [recordAnswer, ho] using h.filter _
      · simp only [recordAnswer, ho, if_neg, if_true, reduceIte]
        rw [List.nodup_append]
        exact ⟨h, List.nodup_singleton o, by
          intro a ha hao
          simp only [List.mem_singleton] at hao
          exact ho (hao ▸ ha)⟩

/-! ### The submit guard -/

/-- The spec's wording of the submit guard: "for every question `q` in
`questions`, `userAnswers[q.id]` exists and is non-empty".  Written from
the spec for comparison with the source's `isQuizAnswered`. -/
def submitGuardSpec (s : DocumentSession) : Prop :=
  ∀ q ∈ s.questions, ∃ l, getKey s.userAnswers q.id = some l ∧ 0 < l.length

instance (s : DocumentSession) : Decidable (submitGuardSpec s) := by
  unfold submitGuardSpec
  infer_instance

theorem isQuizAnswered_iff (s : DocumentSession) :
    isQuizAnswered s = true ↔ s.questions ≠ [] ∧ submitGuardSpec s := by
  unfold isQuizAnswered submitGuardSpec
  by_cases h : s.questions.length = 0
  · simp [h, List.length_eq_zero.mp h]
  · rw [if_neg h, List.all_eq_true]
    constructor
    · intro hall
      refine ⟨fun hnil => h (by simp [hnil]), fun q hq => ?_⟩
      have hx := hall q hq
      cases hg : getKey s.userAnswers q.id with
      | none => rw [hg] at hx; simp at hx
      | some l =>
          rw [hg] at hx
          simp only [decide_eq_true_eq] at hx
          exact ⟨l, rfl, hx⟩
    · rintro ⟨-, hspec⟩ q hq
      obtain ⟨l, hg, hl⟩ := hspec q hq
      rw [hg]
      simpa using hl

/-! ### In-flight states carry no error -/

/-- Invariant: a session in an in-flight state has a cleared error. -/
def InflightClean (s : DocumentSession) : Prop :=
  (s.state = .GENERATING_QUIZ ∨ s.state = .SUBMITTING_QUIZ) → s.error = none

theorem inflightClean_newSession (id fileName content : String) (now : Int) :
    InflightClean (newSession id fileName content now) := by
  intro h
  rfl

theorem inflightClean_step (s : DocumentSession) (op : Op)
    (h : InflightClean s) : InflightClean (step s op) := by
  cases op with
  | startGenerate now =>
      by_cases hg : s.state = .CONFIGURING_QUIZ ∧ s.content ≠ ""
      · simp [step, hg, generateStart, InflightClean]
      · simpa [step, hg] using h
  | finishGenerate res now =>
      by_cases hg : s.state = .GENERATING_QUIZ
      · cases res with
        | ok qs =>
            by_cases hq : qs.length = 0 <;>
              simp [step, hg, generateFinish, hq, InflightClean]
        | error e => simp [step, hg, generateFinish, InflightClean]
      · simpa [step, hg] using h
  | answer q o m now =>
      by_cases hg : s.state = .TAKING_QUIZ
      · simp [step, hg, handleAnswerChange, InflightClean]
      · simpa [step, hg] using h
  | startSubmit now =>
      by_cases hg : s.state = .TAKING_QUIZ ∧ isQuizAnswered s
      · simp [step, hg, submitStart, InflightClean]
      · simpa [step, hg] using h
  | finishSubmit res now =>
      by_cases hg : s.state = .SUBMITTING_QUIZ
      · cases res with
        | ok r => simp [step, hg, submitFinish, InflightClean]
        | error e => simp [step, hg, submitFinish, InflightClean]
      · simpa [step, hg] using h
  | ackError now =>
      by_cases hg : s.state = .ERROR
      · simp [step, hg, ackErrorHandler, InflightClean]
      · simpa [step, hg] using h
  | improve now =>
      by_cases hg : s.state = .REVIEWING_QUIZ ∧ improveAvailable s
      · simp [step, hg, improveWeakTopics, InflightClean]
      · simpa [step, hg] using h
  | reset now => simp [step, resetSession, InflightClean]
  | setQuizType t now =>
      by_cases hg : s.state = .CONFIGURING_QUIZ
      · simp [step, hg, setQuizTypeHandler, InflightClean]
      · simpa [step, hg] using h
  | setNumQuestions raw now =>
      by_cases hg : s.state = .CONFIGURING_QUIZ
      · simp [step, hg, setNumQuestionsHandler, InflightClean]
      · simpa [step, hg] using h

theorem inflightClean_run (ops : List Op) (s : DocumentSession)
    (h : InflightClean s) : InflightClean (run s ops) := by
  induction ops generalizing s with
  | nil => simpa [run] using h
  | cons op rest ih =>
      have := ih (step s op) (inflightClean_step s op h)
      simpa [run] using this

/-! ### Claim theorems -/

/-- Claim C1, counterexample to the claim as stated: on a freshly created
session `questions` is the empty sequence, so "for every question `q` in
`questions`, `userAnswers[q.id]` exists and is non-empty" holds vacuously,
yet `isQuizAnswered` is `false` — the claimed "iff ... including the case
where questions is the empty sequence" fails. -/
theorem C1_submit_guard_cex :
    submitGuardSpec (newSession "s" "f.txt" "doc" 0) ∧
    isQuizAnswered (newSession "s" "f.txt" "doc" 0) = false := by
  refine ⟨?_, by decide⟩
  intro q hq
  simp [newSession] at hq

/-- Claim C1 (amended): the submit guard `isQuizAnswered` holds iff
`questions` is non-empty AND every question in `questions` has an existing
non-empty answer list in `userAnswers`; whenever the guard does not hold,
`handleSubmitQuiz` leaves the session unchanged (the TAKING_QUIZ →
SUBMITTING_QUIZ transition is rejected). -/
theorem C1_submit_guard (s : DocumentSession) :
    (isQuizAnswered s = true ↔ s.questions ≠ [] ∧ submitGuardSpec s) ∧
    (isQuizAnswered s = false →
      ∀ (res : Except Unit CorrectionResponse) (n1 n2 : Int),
        handleSubmitQuiz s res n1 n2 = s) := by
  refine ⟨isQuizAnswered_iff s, ?_⟩
  intro h res n1 n2
  simp [handleSubmitQuiz, h]

/-- Claim C1 witness: a concrete unanswered session is left unchanged by
`handleSubmitQuiz`. -/
theorem C1_submit_guard_witness :
    handleSubmitQuiz (newSession "s" "f.txt" "doc" 0) (Except.error ()) 1 2
      = newSession "s" "f.txt" "doc" 0 :=
  (C1_submit_guard (newSession "s" "f.txt" "doc" 0)).2 (by decide) (Except.error ()) 1 2

/-- Claim C2: from a session entering generation, a generator result with
at least one question installs exactly those questions, empties
`userAnswers`, nulls `correction` and moves to TAKING_QUIZ; a zero-question
result or a failure instead moves to ERROR with a non-empty message,
leaving `questions`, `userAnswers` and `correction` unchanged. -/
theorem C2_generate_quiz (s : DocumentSession)
    (res : Except Unit (List Question)) (n1 n2 : Int) :
    (∀ qs, res = Except.ok qs → qs ≠ [] →
      (handleGenerateQuiz s res n1 n2).questions = qs ∧
      (handleGenerateQuiz s res n1 n2).userAnswers = [] ∧
      (handleGenerateQuiz s res n1 n2).correction = none ∧
      (handleGenerateQuiz s res n1 n2).state = SessionState.TAKING_QUIZ) ∧
    ((res = Except.ok [] ∨ res = Except.error ()) →
      (handleGenerateQuiz s res n1 n2).state = SessionState.ERROR ∧
      (∃ m, (handleGenerateQuiz s res n1 n2).error = some m ∧ m ≠ "") ∧
      (handleGenerateQuiz s res n1 n2).questions = s.questions ∧
      (handleGenerateQuiz s res n1 n2).userAnswers = s.userAnswers ∧
      (handleGenerateQuiz s res n1 n2).correction = s.correction) := by
  constructor
  · rintro qs rfl hne
    have hlen : ¬qs.length = 0 := fun hh => hne (List.length_eq_zero.mp hh)
    simp [handleGenerateQuiz, generateFinish, generateStart, hlen]
  · rintro (rfl | rfl)
    · exact ⟨by simp [handleGenerateQuiz, generateFinish, generateStart],
        ⟨noQuestionsMsg,
          by simp [handleGenerateQuiz, generateFinish, generateStart],
          by decide⟩,
        by simp [handleGenerateQuiz, generateFinish, generateStart],
        by simp [handleGenerateQuiz, generateFinish, generateStart],
        by simp [handleGenerateQuiz, generateFinish, generateStart]⟩
    · exact ⟨by simp [handleGenerateQuiz, generateFinish, generateStart],
        ⟨generateFailMsg,
          by simp [handleGenerateQuiz, generateFinish, generateStart],
          by decide⟩,
        by simp [handleGenerateQuiz, generateFinish, generateStart],
        by simp [handleGenerateQuiz, generateFinish, generateStart],
        by simp [handleGenerateQuiz, generateFinish, generateStart]⟩

/-- Claim C2 witness: a one-question generator result at a concrete
session moves it to TAKING_QUIZ. -/
theorem C2_generate_quiz_witness :
    (handleGenerateQuiz (newSession "s" "f.txt" "doc" 0)
      (Except.ok [⟨"q1", "Q?", [⟨"A", true⟩], QKind.single⟩]) 1 2).state
      = SessionState.TAKING_QUIZ :=
  ((C2_generate_quiz (newSession "s" "f.txt" "doc" 0)
      (Except.ok [⟨"q1", "Q?", [⟨"A", true⟩], QKind.single⟩]) 1 2).1
    [⟨"q1", "Q?", [⟨"A", true⟩], QKind.single⟩] rfl (by decide)).2.2.2

/-- Claim C3, counterexample to the claim as stated: after a successful
generation, an answered submission whose grading fails, and an
error-acknowledgment, the session is back in CONFIGURING_QUIZ with its
`questions` still non-empty — the acknowledge handler only clears
`error`. -/
theorem C3_configuring_cleared_cex :
    (run (newSession "s" "f.txt" "doc" 0)
      [Op.startGenerate 1,
       Op.finishGenerate (Except.ok [⟨"q1", "Q?", [⟨"A", true⟩], QKind.single⟩]) 2,
       Op.answer "q1" "A" false 3, Op.startSubmit 4,
       Op.finishSubmit (Except.error ()) 5, Op.ackError 6]).state
      = SessionState.CONFIGURING_QUIZ ∧
    (run (newSession "s" "f.txt" "doc" 0)
      [Op.startGenerate 1,
       Op.finishGenerate (Except.ok [⟨"q1", "Q?", [⟨"A", true⟩], QKind.single⟩]) 2,
       Op.answer "q1" "A" false 3, Op.startSubmit 4,
       Op.finishSubmit (Except.error ()) 5, Op.ackError 6]).questions ≠ [] := by
  decide

/-- Claim C3 (amended): session creation, `resetSession`, and the
improve-weak-topics action each enter CONFIGURING_QUIZ with empty
`questions`, empty `userAnswers` and null `correction`; acknowledging an
error also enters CONFIGURING_QUIZ but preserves `questions`,
`userAnswers` and `correction` exactly, so a session that failed after a
successful generation can sit in CONFIGURING_QUIZ with non-empty quiz
data. -/
theorem C3_configuring_entry_fields (id fileName content : String) (n0 : Int)
    (s : DocumentSession) (now : Int) :
    ((newSession id fileName content n0).state = SessionState.CONFIGURING_QUIZ ∧
     (newSession id fileName content n0).questions = [] ∧
     (newSession id fileName content n0).userAnswers = [] ∧
     (newSession id fileName content n0).correction = none) ∧
    ((resetSession s now).state = SessionState.CONFIGURING_QUIZ ∧
     (resetSession s now).questions = [] ∧
     (resetSession s now).userAnswers = [] ∧
     (resetSession s now).correction = none) ∧
    ((improveWeakTopics s now).state = SessionState.CONFIGURING_QUIZ ∧
     (improveWeakTopics s now).questions = [] ∧
     (improveWeakTopics s now).userAnswers = [] ∧
     (improveWeakTopics s now).correction = none) ∧
    ((ackErrorHandler s now).state = SessionState.CONFIGURING_QUIZ ∧
     (ackErrorHandler s now).questions = s.questions ∧
     (ackErrorHandler s now).userAnswers = s.userAnswers ∧
     (ackErrorHandler s now).correction = s.correction) :=
  ⟨⟨rfl, rfl, rfl, rfl⟩, ⟨rfl, rfl, rfl, rfl⟩,
   ⟨rfl, rfl, rfl, rfl⟩, ⟨rfl, rfl, rfl, rfl⟩⟩

/-- Claim C4, evaluation at the failing inputs: the question-count
handler `Math.max(1, parseInt(value, 10))` stores `NaN` (here `none`) for
the non-numeric inputs "abc" and "", and stores 25 for "25" — so neither
"an integer ≥ 1 always" nor the 20 cap holds at the store. -/
theorem C4_num_questions_nan :
    (setNumQuestionsHandler (newSession "s" "f.txt" "doc" 0) "abc" 1).numQuestions
      = none ∧
    (setNumQuestionsHandler (newSession "s" "f.txt" "doc" 0) "" 1).numQuestions
      = none ∧
    (setNumQuestionsHandler (newSession "s" "f.txt" "doc" 0) "25" 1).numQuestions
      = some 25 := by
  decide

/-- Claim C5, counterexample to the claim as stated: starting from
`userAnswers[q1] = ["a", "b"]`, toggling "a" off and on again yields
`["b", "a"]`, not the original sequence — removal filters the option out
and re-adding appends it at the end. -/
theorem C5_toggle_twice_cex :
    userAnswersAt
      (handleAnswerChange
        (handleAnswerChange
          { newSession "s" "f.txt" "doc" 0 with userAnswers := [("q1", ["a", "b"])] }
          "q1" "a" true 1)
        "q1" "a" true 2) "q1"
      ≠ userAnswersAt
          { newSession "s" "f.txt" "doc" 0 with userAnswers := [("q1", ["a", "b"])] }
          "q1" := by
  decide

/-- Claim C5 (amended): toggling the same option twice with
`isMultiple=true` restores the answer list exactly when the option was
initially absent, and in every case yields a list with exactly the same
membership (the same set of selected options) as before the pair of
calls; when the option was initially present the list may be reordered
(the option moves to the end). -/
theorem C5_toggle_twice (s : DocumentSession) (q o : String) (n1 n2 : Int) :
    (o ∉ userAnswersAt s q →
      userAnswersAt
        (handleAnswerChange (handleAnswerChange s q o true n1) q o true n2) q
        = userAnswersAt s q) ∧
    (∀ x, x ∈ userAnswersAt
        (handleAnswerChange (handleAnswerChange s q o true n1) q o true n2) q
      ↔ x ∈ userAnswersAt s q) := by
  have hdouble :
      userAnswersAt
        (handleAnswerChange (handleAnswerChange s q o true n1) q o true n2) q
        = recordAnswer (recordAnswer (userAnswersAt s q) o true) o true := by
    rw [userAnswersAt_handleAnswerChange_self, userAnswersAt_handleAnswerChange_self]
  rw [hdouble]
  exact ⟨fun h => recordAnswer_toggle_eq _ o h, fun x => recordAnswer_toggle_mem _ o x⟩

/-- Claim C5 witness: on a fresh session (option absent) the double
toggle restores the answer list exactly. -/
theorem C5_toggle_twice_witness :
    userAnswersAt
      (handleAnswerChange
        (handleAnswerChange (newSession "s" "f.txt" "doc" 0) "q1" "a" true 1)
        "q1" "a" true 2) "q1"
      = userAnswersAt (newSession "s" "f.txt" "doc" 0) "q1" :=
  (C5_toggle_twice (newSession "s" "f.txt" "doc" 0) "q1" "a" 1 2).1 (by decide)

/-- Claim C6, counterexample to the claim as stated: from REVIEWING_QUIZ,
the only user action that returns to CONFIGURING_QUIZ on the same
document (the improve-weak-topics button) preserves `weakTopics` instead
of clearing it. -/
theorem C6_improve_cex :
    (run (newSession "s" "f.txt" "doc" 0)
      [Op.startGenerate 1,
       Op.finishGenerate (Except.ok [⟨"q1", "Q?", [⟨"A", true⟩], QKind.single⟩]) 2,
       Op.answer "q1" "A" false 3, Op.startSubmit 4,
       Op.finishSubmit (Except.ok ⟨[⟨"Q?", ["A"], ["A"], true, "fr", "ar"⟩], "Topic X"⟩) 5,
       Op.improve 6]).state = SessionState.CONFIGURING_QUIZ ∧
    (run (newSession "s" "f.txt" "doc" 0)
      [Op.startGenerate 1,
       Op.finishGenerate (Except.ok [⟨"q1", "Q?", [⟨"A", true⟩], QKind.single⟩]) 2,
       Op.answer "q1" "A" false 3, Op.startSubmit 4,
       Op.finishSubmit (Except.ok ⟨[⟨"Q?", ["A"], ["A"], true, "fr", "ar"⟩], "Topic X"⟩) 5,
       Op.improve 6]).weakTopics = some "Topic X" := by
  decide

/-- Claim C6 (amended): the REVIEWING_QUIZ → CONFIGURING_QUIZ action on
the same document (improve weak topics) clears `questions`, `userAnswers`,
`correction` and `error`, leaves `id`, `fileName` and `content`
unchanged, and also leaves `weakTopics` unchanged (it is kept to drive
targeted regeneration, not cleared). -/
theorem C6_improve_fields (s : DocumentSession) (now : Int) :
    (improveWeakTopics s now).state = SessionState.CONFIGURING_QUIZ ∧
    (improveWeakTopics s now).questions = [] ∧
    (improveWeakTopics s now).userAnswers = [] ∧
    (improveWeakTopics s now).correction = none ∧
    (improveWeakTopics s now).error = none ∧
    (improveWeakTopics s now).weakTopics = s.weakTopics ∧
    (improveWeakTopics s now).id = s.id ∧
    (improveWeakTopics s now).fileName = s.fileName ∧
    (improveWeakTopics s now).content = s.content :=
  ⟨rfl, rfl, rfl, rfl, rfl, rfl, rfl, rfl, rfl⟩

/-- Claim C9: every reachable session whose state is GENERATING_QUIZ or
SUBMITTING_QUIZ has `error = null` — both in-flight entries set
`error: null` alongside the state, and nothing else enters those
states. -/
theorem C9_inflight_error_none (s : DocumentSession) (h : Reachable s)
    (hs : s.state = SessionState.GENERATING_QUIZ ∨
          s.state = SessionState.SUBMITTING_QUIZ) :
    s.error = none := by
  obtain ⟨id, fileName, content, n0, ops, rfl⟩ := h
  exact inflightClean_run ops _ (inflightClean_newSession id fileName content n0) hs

/-- Claim C9 witness: the session right after starting generation is
reachable, is in GENERATING_QUIZ, and carries no error. -/
theorem C9_inflight_error_none_witness :
    (run (newSession "s" "f.txt" "doc" 0) [Op.startGenerate 1]).error = none :=
  C9_inflight_error_none _
    ⟨"s", "f.txt", "doc", 0, [Op.startGenerate 1], rfl⟩
    (Or.inl (by decide))

/-- Claim C10: `handleAnswerChange` preserves duplicate-freedom of every
question's answer list — the single-select branch writes a singleton, the
multi-select branch appends only an absent option and filters out every
occurrence of a present one. -/
theorem C10_answer_change_nodup (s : DocumentSession) (q o : String) (m : Bool)
    (now : Int) (q' : String) (h : (userAnswersAt s q').Nodup) :
    (userAnswersAt (handleAnswerChange s q o m now) q').Nodup := by
  by_cases hq : q' = q
  · subst hq
    rw [userAnswersAt_handleAnswerChange_self]
    exact recordAnswer_nodup _ o m h
  · rw [userAnswersAt_handleAnswerChange_other s q o m now q' hq]
    exact h

/-- Claim C10 witness: a concrete duplicate-free answer list stays
duplicate-free through `handleAnswerChange`. -/
theorem C10_answer_change_nodup_witness :
    (userAnswersAt
      (handleAnswerChange
        { newSession "s" "f.txt" "doc" 0 with userAnswers := [("q1", ["a", "b"])] }
        "q1" "c" true 1) "q1").Nodup :=
  C10_answer_change_nodup
    { newSession "s" "f.txt" "doc" 0 with userAnswers := [("q1", ["a", "b"])] }
    "q1" "c" true 1 "q1" (by decide)

/-!
### Persistence: JSON serialisation of the session store

`JSON.stringify` / `JSON.parse` on the structures the program persists
(App.tsx lines 17-19 and 31).  Values are modelled by a `Json` type;
encoding follows `JSON.stringify` on the objects as the program builds
them: keys in insertion order, `undefined`-valued optional fields
(`weakTopics`, unset `error`) omitted, `null` fields kept as `null`, and
a `NaN` number (`numQuestions = none`) emitted as `null`.  Decoding reads
fields by key; it refuses a `null` `numQuestions`, because the value
`JSON.parse` produces there (`null`) is not the `NaN` that was saved —
the reloaded record is no longer a well-formed `DocumentSession`. -/
inductive Json where
  | null
  | bool (b : Bool)
  | num (n : Int)
  | str (s : String)
  | arr (items : List Json)
  | obj (fields : List (String × Json))

/-- Encoding of `SessionState`, a numeric TS enum: its JSON form is 0..5. -/
def encodeState : SessionState → Int
  | .CONFIGURING_QUIZ => 0
  | .GENERATING_QUIZ => 1
  | .TAKING_QUIZ => 2
  | .SUBMITTING_QUIZ => 3
  | .REVIEWING_QUIZ => 4
  | .ERROR => 5

def decodeState : Int → Option SessionState
  | 0 => some .CONFIGURING_QUIZ
  | 1 => some .GENERATING_QUIZ
  | 2 => some .TAKING_QUIZ
  | 3 => some .SUBMITTING_QUIZ
  | 4 => some .REVIEWING_QUIZ
  | 5 => some .ERROR
  | _ => none

/-- Decoding of `QuizType`, a string TS enum: its JSON form is the label. -/
def decodeQuizType (l : String) : Option QuizType :=
  if l = "Réponse Unique" then some .SINGLE
  else if l = "Réponses Multiples" then some .MULTIPLE
  else if l = "Mixte" then some .MIXED
  else none

def encodeQKind : QKind → String
  | .single => "single"
  | .multiple => "multiple"

def decodeQKind (l : String) : Option QKind :=
  if l = "single" then some .single
  else if l = "multiple" then some .multiple
  else none

/-- Decode every element of a JSON array. -/
def decodeList {α : Type} (f : Json → Option α) : List Json → Option (List α)
  | [] => some []
  | j :: rest =>
      match f j, decodeList f rest with
      | some a, some as => some (a :: as)
      | _, _ => none

/-- Decode every value of a JSON object, keeping keys and order. -/
def decodeEntries {α : Type} (f : Json → Option α) :
    List (String × Json) → Option (List (String × α))
  | [] => some []
  | (k, v) :: rest =>
      match f v, decodeEntries f rest with
      | some a, some as => some ((k, a) :: as)
      | _, _ => none

def asStr : Option Json → Option String
  | some (.str s) => some s
  | _ => none

def asInt : Option Json → Option Int
  | some (.num n) => some n
  | _ => none

def asBool : Option Json → Option Bool
  | some (.bool b) => some b
  | _ => none

def asArr : Option Json → Option (List Json)
  | some (.arr items) => some items
  | _ => none

def asObjFields : Option Json → Option (List (String × Json))
  | some (.obj fs) => some fs
  | _ => none

/-- A field that the program stores as a string or as `null`/absent
(`undefined` is dropped by `JSON.stringify`, `null` survives; both read
back as an unset value). -/
def asOptStr : Option Json → Option (Option String)
  | none => some none
  | some Json.null => some none
  | some (.str s) => some (some s)
  | some _ => none

def encodeQOption (o : QOption) : Json :=
  .obj [("text", .str o.text), ("isCorrect", .bool o.isCorrect)]

def decodeQOption (j : Json) : Option QOption := do
  let fs ← asObjFields (some j)
  let text ← asStr (getKey fs "text")
  let isCorrect ← asBool (getKey fs "isCorrect")
  some ⟨text, isCorrect⟩

def encodeQuestion (q : Question) : Json :=
  .obj [("id", .str q.id), ("questionText", .str q.questionText),
        ("options", .arr (q.options.map encodeQOption)),
        ("type", .str (encodeQKind q.type))]

def decodeQuestion (j : Json) : Option Question := do
  let fs ← asObjFields (some j)
  let id ← asStr (getKey fs "id")
  let questionText ← asStr (getKey fs "questionText")
  let options ← (asArr (getKey fs "options")).bind (decodeList decodeQOption)
  let type ← (asStr (getKey fs "type")).bind decodeQKind
  some ⟨id, questionText, options, type⟩

def decodeStrElem : Json → Option String
  | .str s => some s
  | _ => none

def encodeAnswers (ua : UserAnswers) : Json :=
  .obj (ua.map fun p => (p.1, .arr (p.2.map Json.str)))

def decodeAnswerList (j : Json) : Option (List String) :=
  (asArr (some j)).bind (decodeList decodeStrElem)

def decodeAnswers (j : Json) : Option UserAnswers :=
  (asObjFields (some j)).bind (decodeEntries decodeAnswerList)

def encodeQuizResult (r : QuizResult) : Json :=
  .obj [("questionText", .str r.questionText),
        ("userAnswer", .arr (r.userAnswer.map Json.str)),
        ("correctAnswer", .arr (r.correctAnswer.map Json.str)),
        ("isCorrect", .bool r.isCorrect),
        ("feedbackFR", .str r.feedbackFR),
        ("feedbackAR", .str r.feedbackAR)]

def decodeQuizResult (j : Json) : Option QuizResult := do
  let fs ← asObjFields (some j)
  let questionText ← asStr (getKey fs "questionText")
  let userAnswer ← (asArr (getKey fs "userAnswer")).bind (decodeList decodeStrElem)
  let correctAnswer ← (asArr (getKey fs "correctAnswer")).bind (decodeList decodeStrElem)
  let isCorrect ← asBool (getKey fs "isCorrect")
  let feedbackFR ← asStr (getKey fs "feedbackFR")
  let feedbackAR ← asStr (getKey fs "feedbackAR")
  some ⟨questionText, userAnswer, correctAnswer, isCorrect, feedbackFR, feedbackAR⟩

def encodeCorrection (c : CorrectionResponse) : Json :=
  .obj [("results", .arr (c.results.map encodeQuizResult)),
        ("weakTopics", .str c.weakTopics)]

def decodeCorrection (j : Json) : Option CorrectionResponse := do
  let fs ← asObjFields (some j)
  let results ← (asArr (getKey fs "results")).bind (decodeList decodeQuizResult)
  let weakTopics ← asStr (getKey fs "weakTopics")
  some ⟨results, weakTopics⟩

/-- A nullable structured field (`correction`): always present, `null`
when unset. -/
def asNullable {α : Type} (f : Json → Option α) : Option Json → Option (Option α)
  | some Json.null => some none
  | some j => (f j).map some
  | none => none

/-- A JS number that may be `NaN`: `JSON.stringify` turns `NaN` into
`null`. -/
def encodeJsNum : Option Int → Json
  | some n => .num n
  | none => .null

/-- A string-or-unset field: an unset value serialises as `null` (when it
is the JS `null`) or is omitted (when it is `undefined`); the load path
reads both back as the same unset value, so the embedding uses `null`
uniformly for the unset case. -/
def encodeOptStr : Option String → Json
  | some w => .str w
  | none => .null

/-- The nullable `correction` field. -/
def encodeNullable : Option CorrectionResponse → Json
  | some c => encodeCorrection c
  | none => .null

def encodeSession (s : DocumentSession) : Json :=
  .obj
    [("id", .str s.id), ("fileName", .str s.fileName),
     ("content", .str s.content),
     ("quizType", .str s.quizType.label),
     ("numQuestions", encodeJsNum s.numQuestions),
     ("questions", .arr (s.questions.map encodeQuestion)),
     ("userAnswers", encodeAnswers s.userAnswers),
     ("correction", encodeNullable s.correction),
     ("weakTopics", encodeOptStr s.weakTopics),
     ("lastAccessed", .num s.lastAccessed),
     ("state", .num (encodeState s.state)),
     ("error", encodeOptStr s.error)]

def decodeSession (j : Json) : Option DocumentSession := do
  let fs ← asObjFields (some j)
  let id ← asStr (getKey fs "id")
  let fileName ← asStr (getKey fs "fileName")
  let content ← asStr (getKey fs "content")
  let quizType ← (asStr (getKey fs "quizType")).bind decodeQuizType
  let numQuestions ← asInt (getKey fs "numQuestions")
  let questions ← (asArr (getKey fs "questions")).bind (decodeList decodeQuestion)
  let userAnswers ← (asObjFields (getKey fs "userAnswers")).bind
    (decodeEntries decodeAnswerList)
  let correction ← asNullable decodeCorrection (getKey fs "correction")
  let weakTopics ← asOptStr (getKey fs "weakTopics")
  let lastAccessed ← asInt (getKey fs "lastAccessed")
  let state ← (asInt (getKey fs "state")).bind decodeState
  let error ← asOptStr (getKey fs "error")
  some ⟨id, fileName, content, quizType, some numQuestions, questions,
        userAnswers, correction, weakTopics, lastAccessed, state, error⟩

/-- The full store under `APP_STORAGE_KEY`: the JSON object mapping
session ids to sessions (`JSON.stringify(sessions)`). -/
def encodeStore (st : List (String × DocumentSession)) : Json :=
  .obj (st.map fun p => (p.1, encodeSession p.2))

def decodeStore (j : Json) : Option (List (String × DocumentSession)) :=
  (asObjFields (some j)).bind (decodeEntries decodeSession)

/-- Model of `Object.values(sessions).sort((a, b) => b.lastAccessed - a.lastAccessed)`
(App.tsx line 169): the session list in lastAccessed-descending order
(stable insertion sort). -/
def insertSession (s : DocumentSession) : List DocumentSession → List DocumentSession
  | [] => [s]
  | t :: ts =>
      if s.lastAccessed ≤ t.lastAccessed then t :: insertSession s ts
      else s :: t :: ts

def listSessions (st : List (String × DocumentSession)) : List DocumentSession :=
  (st.map Prod.snd).foldr insertSession []

/-! ### Round-trip lemmas -/

theorem decodeList_map {α : Type} (f : α → Json) (g : Json → Option α)
    (l : List α) (h : ∀ a ∈ l, g (f a) = some a) :
    decodeList g (l.map f) = some l := by
  induction l with
  | nil => rfl
  | cons a as ih =>
      simp only [List.map_cons, decodeList]
      rw [h a (List.mem_cons_self a as),
          ih (fun b hb => h b (List.mem_cons_of_mem a hb))]

theorem decodeEntries_map {α : Type} (f : α → Json) (g : Json → Option α)
    (l : List (String × α)) (h : ∀ p ∈ l, g (f p.2) = some p.2) :
    decodeEntries g (l.map fun p => (p.1, f p.2)) = some l := by
  induction l with
  | nil => rfl
  | cons p ps ih =>
      obtain ⟨k, v⟩ := p
      simp only [List.map_cons, decodeEntries]
      rw [h (k, v) (List.mem_cons_self _ _),
          ih (fun q hq => h q (List.mem_cons_of_mem _ hq))]

theorem decodeQKind_encodeQKind (k : QKind) :
    decodeQKind (encodeQKind k) = some k := by
  cases k <;> rfl

theorem decodeQuizType_label (t : QuizType) :
    decodeQuizType t.label = some t := by
  cases t <;> rfl

theorem decodeState_encodeState (st : SessionState) :
    decodeState (encodeState st) = some st := by
  cases st <;> rfl

theorem decodeQOption_encodeQOption (o : QOption) :
    decodeQOption (encodeQOption o) = some o := by
  obtain ⟨t, b⟩ := o
  rfl

theorem decodeAnswerList_encode (l : List String) :
    decodeAnswerList (.arr (l.map Json.str)) = some l := by
  simpa [decodeAnswerList, asArr] using
    decodeList_map Json.str decodeStrElem l (fun a _ => rfl)

theorem decodeQuestion_encodeQuestion (q : Question) :
    decodeQuestion (encodeQuestion q) = some q := by
  obtain ⟨i, qt, os, k⟩ := q
  simp [decodeQuestion, encodeQuestion, getKey, asStr, asArr, asObjFields,
        decodeList_map encodeQOption decodeQOption os
          (fun a _ => decodeQOption_encodeQOption a),
        decodeQKind_encodeQKind]

theorem decodeQuizResult_encodeQuizResult (r : QuizResult) :
    decodeQuizResult (encodeQuizResult r) = some r := by
  obtain ⟨qt, ua, ca, ic, fr, ar⟩ := r
  simp [decodeQuizResult, encodeQuizResult, getKey, asStr, asArr, asBool,
        asObjFields,
        decodeList_map Json.str decodeStrElem ua (fun a _ => rfl),
        decodeList_map Json.str decodeStrElem ca (fun a _ => rfl)]

theorem decodeCorrection_encodeCorrection (c : CorrectionResponse) :
    decodeCorrection (encodeCorrection c) = some c := by
  obtain ⟨rs, wt⟩ := c
  simp [decodeCorrection, encodeCorrection, getKey, asStr, asArr, asObjFields,
        decodeList_map encodeQuizResult decodeQuizResult rs
          (fun a _ => decodeQuizResult_encodeQuizResult a)]

theorem asOptStr_encodeOptStr (w : Option String) :
    asOptStr (some (encodeOptStr w)) = some w := by
  cases w <;> rfl

theorem asNullable_encodeNullable (c : Option CorrectionResponse) :
    asNullable decodeCorrection (some (encodeNullable c)) = some c := by
  cases c with
  | none => rfl
  | some c =>
      show (decodeCorrection (encodeCorrection c)).map some = some (some c)
      rw [decodeCorrection_encodeCorrection]
      rfl

theorem decodeSession_encodeSession (s : DocumentSession)
    (h : s.numQuestions.isSome = true) :
    decodeSession (encodeSession s) = some s := by
  obtain ⟨id, fileName, content, quizType, numQuestions, questions,
          userAnswers, correction, weakTopics, lastAccessed, state, error⟩ := s
  obtain ⟨n, rfl⟩ := Option.isSome_iff_exists.mp h
  have hq : decodeList decodeQuestion (questions.map encodeQuestion)
      = some questions :=
    decodeList_map _ _ _ (fun a _ => decodeQuestion_encodeQuestion a)
  have hua : decodeEntries decodeAnswerList
      (userAnswers.map fun p => (p.1, Json.arr (p.2.map Json.str)))
      = some userAnswers :=
    decodeEntries_map (fun v => Json.arr (v.map Json.str)) decodeAnswerList
      userAnswers (fun p _ => decodeAnswerList_encode p.2)
  show Option.bind (decodeQuizType (QuizType.label quizType)) (fun quizType =>
      Option.bind (decodeList decodeQuestion (List.map encodeQuestion questions))
        (fun questions =>
      Option.bind (decodeEntries decodeAnswerList
          (List.map (fun p => (p.1, Json.arr (List.map Json.str p.2))) userAnswers))
        (fun userAnswers =>
      Option.bind (asNullable decodeCorrection (some (encodeNullable correction)))
        (fun correction =>
      Option.bind (asOptStr (some (encodeOptStr weakTopics))) (fun weakTopics =>
      Option.bind (decodeState (encodeState state)) (fun state =>
      Option.bind (asOptStr (some (encodeOptStr error))) (fun error =>
      some (DocumentSession.mk id fileName content quizType (some n) questions
        userAnswers correction weakTopics lastAccessed state error))))))))
      = some (DocumentSession.mk id fileName content quizType (some n) questions
          userAnswers correction weakTopics lastAccessed state error)
  rw [decodeQuizType_label, hq, hua, asNullable_encodeNullable]
  simp only [Option.some_bind]
  rw [asOptStr_encodeOptStr, decodeState_encodeState, asOptStr_encodeOptStr]
  simp only [Option.some_bind]

theorem decodeStore_encodeStore (st : List (String × DocumentSession))
    (h : ∀ p ∈ st, p.2.numQuestions.isSome = true) :
    decodeStore (encodeStore st) = some st := by
  simpa [decodeStore, encodeStore, asObjFields] using
    decodeEntries_map encodeSession decodeSession st
      (fun p hp => decodeSession_encodeSession p.2 (h p hp))

/-- Claim C7, counterexample to the claim as stated: the claim quantifies
over every session store, but a store holding a session whose
`numQuestions` is `NaN` (reachable through the question-count handler's
`Math.max(1, parseInt(...))` on non-numeric input) does not round-trip:
`JSON.stringify` turns `NaN` into `null`, and what `JSON.parse` reads
back (`null`) is not the `NaN` that was saved — here the decoder refuses
the record outright, so the reloaded store is not equal to the
original. -/
theorem C7_store_round_trip_cex :
    decodeStore (encodeStore
      [("k", { newSession "k" "f.txt" "doc" 0 with numQuestions := none })])
      = none ∧
    decodeStore (encodeStore
      [("k", { newSession "k" "f.txt" "doc" 0 with numQuestions := none })])
      ≠ some [("k", { newSession "k" "f.txt" "doc" 0 with numQuestions := none })] := by
  decide

/-- Claim C7 (amended): serialising the session store as the save step
does and parsing it back as the load step does yields a store equal to
the original in every field of every session, provided every session's
`numQuestions` is an actual number (as the data model requires); in
particular the `lastAccessed`-descending session list is preserved.  A
session whose `numQuestions` became `NaN` is the one exception: `NaN`
serialises as `null` and does not survive the round trip. -/
theorem C7_store_round_trip (st : List (String × DocumentSession))
    (h : ∀ p ∈ st, p.2.numQuestions.isSome = true) :
    decodeStore (encodeStore st) = some st ∧
    ∀ st', decodeStore (encodeStore st) = some st' →
      listSessions st' = listSessions st := by
  have h1 : decodeStore (encodeStore st) = some st := decodeStore_encodeStore st h
  refine ⟨h1, fun st' hst' => ?_⟩
  rw [h1] at hst'
  cases hst'
  rfl

/-- Claim C7 witness: a concrete two-session store round-trips exactly. -/
theorem C7_store_round_trip_witness :
    decodeStore (encodeStore
      [("a", newSession "a" "f.txt" "doc" 3), ("b", newSession "b" "g.txt" "x" 1)])
      = some
        [("a", newSession "a" "f.txt" "doc" 3), ("b", newSession "b" "g.txt" "x" 1)] :=
  (C7_store_round_trip
    [("a", newSession "a" "f.txt" "doc" 3), ("b", newSession "b" "g.txt" "x" 1)]
    (by decide)).1

/-!
### The application shell: load-before-save

App.tsx lines 10-35: the component state is the session map plus the
`isLoaded` flag (initially false); the mount effect reads the storage
key, replaces the map on a successful parse, and sets `isLoaded := true`
in every case — success, absent key, or parse failure (the `catch` only
logs); the save effect bails out (`if (!isLoaded) return`) until the flag
is set and otherwise overwrites the storage key with the serialised map.
Events may arrive in any order; the storage cell is written nowhere
else. -/
structure AppState where
  sessions : List (String × DocumentSession)
  isLoaded : Bool
  storage : Option Json

/-- The events that touch the store: the mount load effect, a run of the
save effect, and any handler mutation of the session map. -/
inductive AppEv where
  | loadEffect
  | saveEffect
  | mutate (f : List (String × DocumentSession) → List (String × DocumentSession))

def stepApp (a : AppState) : AppEv → AppState
  | .loadEffect =>
      { a with
        sessions :=
          match a.storage with
          | some j => (decodeStore j).getD a.sessions
          | none => a.sessions,
        isLoaded := true }
  | .saveEffect =>
      if a.isLoaded then { a with storage := some (encodeStore a.sessions) } else a
  | .mutate f => { a with sessions := f a.sessions }

def runApp (a : AppState) (evs : List AppEv) : AppState :=
  evs.foldl stepApp a

/-- The component state on first render: empty map, `isLoaded = false`,
whatever the durable cell holds. -/
def initialApp (st0 : Option Json) : AppState :=
  { sessions := [], isLoaded := false, storage := st0 }

/-- Claim C8: while the load effect has not yet run (so the `isLoaded`
flag — which the load effect sets whether the load succeeded or failed —
is still false), no event sequence can write the durable storage cell:
the first durable save happens only after the startup load completed or
is known to have failed. -/
theorem C8_no_save_before_load (a : AppState) (evs : List AppEv)
    (h : a.isLoaded = false) (hno : AppEv.loadEffect ∉ evs) :
    (runApp a evs).storage = a.storage ∧ (runApp a evs).isLoaded = false := by
  induction evs generalizing a with
  | nil => exact ⟨rfl, h⟩
  | cons ev rest ih =>
      have hev : ev ≠ AppEv.loadEffect := fun hh =>
        hno (hh ▸ List.mem_cons_self ev rest)
      have hrest : AppEv.loadEffect ∉ rest := fun hh =>
        hno (List.mem_cons_of_mem ev hh)
      cases ev with
      | loadEffect => exact absurd rfl hev
      | saveEffect =>
          have hstep : stepApp a AppEv.saveEffect = a := by
            simp [stepApp, h]
          simpa [runApp, hstep] using ih (a := a) h hrest
      | mutate f =>
          have := ih (a := stepApp a (AppEv.mutate f)) (by simpa [stepApp] using h)
            hrest
          simpa [runApp, stepApp] using this

/-- Claim C8 witness: from a fresh start, saves and mutations alone leave
the durable cell untouched. -/
theorem C8_no_save_before_load_witness :
    (runApp (initialApp none)
      [AppEv.saveEffect, AppEv.mutate (fun x => x), AppEv.saveEffect]).storage
      = none :=
  (C8_no_save_before_load (initialApp none)
    [AppEv.saveEffect, AppEv.mutate (fun x => x), AppEv.saveEffect]
    rfl (by simp)).1

end QuizMaster
